import Mathlib

/-!
# Verification of the OBA roster scraper against its specification

Shallow embedding of the roster-resolution and extraction pipeline found in
`server/roster_scraper.py`, `server/simple_team_matcher.py`,
`server/oba_roster_service.py` and `server/real_oba_scraper.py`.

Pure Python string manipulation is embedded directly over Lean `String`/
`List Char`.  External effects (HTTP fetches, BeautifulSoup DOM queries,
the Python regex engine, the SQL connection) are represented by explicit
parameters holding the data those effects produce: a regex `findall` /
`finditer` call becomes a parameter carrying the list of matches the engine
returned, a database row becomes an `Option` parameter, and the SQLite
cache becomes an explicit association list threaded through the functions.
Python `float` arithmetic in `calculate_similarity` is modelled exactly over
the rationals, expressed with natural-number division (the claims proved
about it depend only on bounds that hold in either arithmetic).  Character
predicates (`str.lower`, `\s`, `\w`, `\d`) are modelled over their ASCII
meaning, which covers every string literal appearing in the program.
-/

/-! ## Python string primitives -/

/-- ASCII fragment of Python's `str.isspace` / regex `\s`. -/
def pyIsSpace (c : Char) : Bool :=
  c = ' ' ∨ c = '\t' ∨ c = '\n' ∨ c = '\r' ∨ c = '\x0b' ∨ c = '\x0c'

/-- Python `str.strip()` on the character list. -/
def pyStripL (l : List Char) : List Char :=
  ((l.dropWhile pyIsSpace).reverse.dropWhile pyIsSpace).reverse

/-- Python `str.strip()`. -/
def pyStrip (s : String) : String := ⟨pyStripL s.data⟩

/-- Python `str.lower()` (ASCII case mapping). -/
def pyLower (s : String) : String := ⟨s.data.map Char.toLower⟩

/-- `a` is a prefix of `b` (character lists). -/
def isPrefixL : List Char → List Char → Bool
  | [], _ => true
  | _ :: _, [] => false
  | a :: as, b :: bs => a = b && isPrefixL as bs

/-- `a` occurs as a contiguous substring of `b`: Python's `a in b`. -/
def isSubstrL : List Char → List Char → Bool
  | a, [] => isPrefixL a []
  | a, b :: bs => isPrefixL a (b :: bs) || isSubstrL a bs

/-- Python `a in b` on strings. -/
def pyIn (a b : String) : Bool := isSubstrL a.data b.data

/-- Python `str.endswith(suffix)`. -/
def pyEndswith (s suffix : String) : Bool :=
  isPrefixL suffix.data.reverse s.data.reverse

/-- Drop the last `k` characters: Python slice `s[:-k]` (for `0 < k`). -/
def pyDropRight (s : String) (k : Nat) : String :=
  ⟨s.data.take (s.data.length - k)⟩

/-- Whitespace-separated words, as produced by Python's no-argument
`str.split()`: split on maximal whitespace runs, no empty tokens. -/
def wordsAux : List Char → List Char → List String
  | [], cur => if cur.isEmpty then [] else [⟨cur.reverse⟩]
  | c :: rest, cur =>
    if pyIsSpace c then
      if cur.isEmpty then wordsAux rest [] else ⟨cur.reverse⟩ :: wordsAux rest []
    else wordsAux rest (c :: cur)

/-- Python `s.split()` with no argument. -/
def pySplitWs (s : String) : List String := wordsAux s.data []

/-- `re.sub(r'\s+', ' ', v).strip()`: collapse whitespace runs to single
spaces and trim the ends; equivalently, rejoin the whitespace words. -/
def normalizeWs (s : String) : String := String.intercalate " " (pySplitWs s)

/-- Full match of `^\d+$`: a nonempty all-digit string. -/
def isAllDigits (s : String) : Bool := s ≠ "" && s.data.all Char.isDigit

/-! ## `simple_team_matcher.calculate_similarity` -/

namespace SimpleTeamMatcher

/-- The normalization `name.lower().strip()` applied to both arguments of
`calculate_similarity`. -/
def similarityNormalize (s : String) : String := pyStrip (pyLower s)

/-- The six hard-coded mascot words that earn a `+0.3` Jaccard bonus. -/
def key_terms : List String :=
  ["falcons", "turtle", "nationals", "cardinals", "eagles", "hawks"]

/-- `calculate_similarity` from `server/simple_team_matcher.py` (lines
45-78).  The float expression `min(int(jaccard * 10), 9)` with
`jaccard = common/total + 0.3 * boosts` is modelled exactly over the
rationals: `int(jaccard * 10) = (10*common + 3*boosts*total) / total`
(truncating division on nonnegative values). -/
def calculate_similarity (search_name team_name : String) : Nat :=
  let search_normalized := similarityNormalize search_name
  let team_normalized := similarityNormalize team_name
  if search_normalized = team_normalized then 10
  else if pyIn search_normalized team_normalized
       || pyIn team_normalized search_normalized then 8
  else
    let search_words := (pySplitWs search_normalized).dedup
    let team_words := (pySplitWs team_normalized).dedup
    let common_words := (search_words.filter (fun w => w ∈ team_words)).length
    let total_words := ((pySplitWs search_normalized) ++ (pySplitWs team_normalized)).dedup.length
    if total_words = 0 then 0
    else
      let boosts := (key_terms.filter
        (fun t => pyIn t search_normalized && pyIn t team_normalized)).length
      min ((10 * common_words + 3 * boosts * total_words) / total_words) 9

theorem calculate_similarity_le_ten (a b : String) : calculate_similarity a b ≤ 10 := by
  unfold calculate_similarity
  dsimp only
  repeat' split
  all_goals omega

theorem calculate_similarity_ne_le_nine (a b : String)
    (h : similarityNormalize a ≠ similarityNormalize b) :
    calculate_similarity a b ≤ 9 := by
  unfold calculate_similarity
  dsimp only
  rw [if_neg h]
  repeat' split
  all_goals omega

theorem calculate_similarity_eq_ten (a b : String)
    (h : similarityNormalize a = similarityNormalize b) :
    calculate_similarity a b = 10 := by
  unfold calculate_similarity
  dsimp only
  rw [if_pos h]

theorem calculate_similarity_substring_eq_eight (a b : String)
    (h : similarityNormalize a ≠ similarityNormalize b)
    (hsub : (pyIn (similarityNormalize a) (similarityNormalize b)
          || pyIn (similarityNormalize b) (similarityNormalize a)) = true) :
    calculate_similarity a b = 8 := by
  unfold calculate_similarity
  dsimp only
  rw [if_neg h, if_pos hsub]

end SimpleTeamMatcher

/-- C5: two strings that are equal case-insensitively after trimming receive
the maximum score 10 from `calculate_similarity`, and any pair that is not
equal after that normalization scores at most 9, hence strictly below the
maximum: the substring and token-overlap branches never reach 10. -/
theorem c5_similarity_max_iff_equal (a b : String) :
    (SimpleTeamMatcher.similarityNormalize a = SimpleTeamMatcher.similarityNormalize b →
      SimpleTeamMatcher.calculate_similarity a b = 10) ∧
    (SimpleTeamMatcher.similarityNormalize a ≠ SimpleTeamMatcher.similarityNormalize b →
      SimpleTeamMatcher.calculate_similarity a b < 10) := by
  constructor
  · exact SimpleTeamMatcher.calculate_similarity_eq_ten a b
  · intro h
    have := SimpleTeamMatcher.calculate_similarity_ne_le_nine a b h
    omega

/-- Closed witness for `c5_similarity_max_iff_equal`: `"  Forest Glade "`
and `"forest glade"` normalize equally and score 10; `"Windsor"` and
`"London"` do not and score below 10. -/
theorem c5_similarity_max_iff_equal_witness :
    SimpleTeamMatcher.calculate_similarity "  Forest Glade " "forest glade" = 10 ∧
    SimpleTeamMatcher.calculate_similarity "Windsor" "London" < 10 :=
  ⟨(c5_similarity_max_iff_equal "  Forest Glade " "forest glade").1 (by decide),
   (c5_similarity_max_iff_equal "Windsor" "London").2 (by decide)⟩

/-- C10: `calculate_similarity` always returns a natural number at most 10;
any pair not equal after normalization scores at most 9; and in the
substring-containment branch the returned value is exactly the fixed 8. -/
theorem c10_similarity_bounds (a b : String) :
    SimpleTeamMatcher.calculate_similarity a b ≤ 10 ∧
    (SimpleTeamMatcher.similarityNormalize a ≠ SimpleTeamMatcher.similarityNormalize b →
      SimpleTeamMatcher.calculate_similarity a b ≤ 9) ∧
    (SimpleTeamMatcher.similarityNormalize a ≠ SimpleTeamMatcher.similarityNormalize b →
      ((pyIn (SimpleTeamMatcher.similarityNormalize a) (SimpleTeamMatcher.similarityNormalize b)
        || pyIn (SimpleTeamMatcher.similarityNormalize b) (SimpleTeamMatcher.similarityNormalize a))
        = true) →
      SimpleTeamMatcher.calculate_similarity a b = 8) :=
  ⟨SimpleTeamMatcher.calculate_similarity_le_ten a b,
   SimpleTeamMatcher.calculate_similarity_ne_le_nine a b,
   SimpleTeamMatcher.calculate_similarity_substring_eq_eight a b⟩

/-- Closed witness for `c10_similarity_bounds`: bounds evaluated on the
concrete pair `("LaSalle", "LaSalle Turtle Club 11U")`, which falls into the
substring branch and scores exactly 8. -/
theorem c10_similarity_bounds_witness :
    SimpleTeamMatcher.calculate_similarity "LaSalle" "LaSalle Turtle Club 11U" ≤ 10 ∧
    SimpleTeamMatcher.calculate_similarity "LaSalle" "LaSalle Turtle Club 11U" = 8 :=
  ⟨(c10_similarity_bounds "LaSalle" "LaSalle Turtle Club 11U").1,
   (c10_similarity_bounds "LaSalle" "LaSalle Turtle Club 11U").2.2 (by decide) (by decide)⟩

/-! ## `roster_scraper.OBARosterScraper` — SQLite roster cache -/

namespace RosterScraper

/-- One entry of a `players` list: `{"number": ..., "name": ...}`. -/
structure RosterPlayer where
  number : String
  name : String
deriving DecidableEq, Repr

/-- The roster dictionary built by `scrape_roster` and stored (JSON-encoded)
in the `roster_cache` table.  `scraped_at` holds the `datetime.now()`
timestamp; JSON serialization of these plain records round-trips, so the
cache is modelled as storing the record itself. -/
structure RosterData where
  team_url : String
  team_name : String
  players : List RosterPlayer
  scraped_at : Int
  authentic_data : Bool
deriving DecidableEq, Repr

/-- `self.cache_duration_hours = 24`. -/
def cache_duration_hours : Int := 24

/-- The `roster_cache` SQLite table: rows `(team_url, roster_data,
timestamp)` with `team_url` as primary key.  Time is measured in seconds. -/
def Cache := List (String × RosterData × Int)

/-- `SELECT roster_data, timestamp FROM roster_cache WHERE team_url = ?`
(the primary key makes at most one row match; `cache_roster` maintains
key uniqueness, and lookup takes the first row either way). -/
def cacheLookup : Cache → String → Option (RosterData × Int)
  | [], _ => none
  | (u, d, t) :: rest, url => if u = url then some (d, t) else cacheLookup rest url

/-- `cache_roster` (lines 74-80): `INSERT OR REPLACE` of
`(team_url, json.dumps(roster_data), datetime.now().isoformat())`. -/
def cache_roster (c : Cache) (team_url : String) (roster_data : RosterData)
    (now : Int) : Cache :=
  (team_url, roster_data, now) :: c.filter (fun row => row.1 ≠ team_url)

/-- `get_cached_roster` (lines 58-72): return the stored record when the row
exists and `now - timestamp < timedelta(hours=24)`, else `None`. -/
def get_cached_roster (c : Cache) (team_url : String) (now : Int) : Option RosterData :=
  match cacheLookup c team_url with
  | some (roster_data, timestamp) =>
    if now - timestamp < cache_duration_hours * 3600 then some roster_data else none
  | none => none

theorem cacheLookup_cache_roster_self (c : Cache) (url : String) (d : RosterData)
    (t : Int) : cacheLookup (cache_roster c url d t) url = some (d, t) := by
  simp [cache_roster, cacheLookup]

end RosterScraper

/-- C6: round-trip through the cache.  `cache_roster` replaces any prior row
for the key and stamps it with the write time; a `get_cached_roster` within
the 24-hour TTL returns exactly the stored record, so in particular its
player list is identical to the one that was written. -/
theorem c6_cache_round_trip (c : RosterScraper.Cache) (team_url : String)
    (d : RosterScraper.RosterData) (t now : Int)
    (h : now - t < RosterScraper.cache_duration_hours * 3600) :
    RosterScraper.cacheLookup (RosterScraper.cache_roster c team_url d t) team_url
      = some (d, t) ∧
    RosterScraper.get_cached_roster (RosterScraper.cache_roster c team_url d t) team_url now
      = some d ∧
    (RosterScraper.get_cached_roster (RosterScraper.cache_roster c team_url d t) team_url now).map
      RosterScraper.RosterData.players = some d.players := by
  have hl := RosterScraper.cacheLookup_cache_roster_self c team_url d t
  refine ⟨hl, ?_, ?_⟩ <;>
    simp [RosterScraper.get_cached_roster, hl, h]

/-- Closed witness for `c6_cache_round_trip`: a put at time 0 over a cache
already holding a different record for the same URL, read back at one hour. -/
theorem c6_cache_round_trip_witness :
    RosterScraper.get_cached_roster
      (RosterScraper.cache_roster
        [("u", { team_url := "u", team_name := "old", players := [],
                 scraped_at := -99, authentic_data := false }, -99)]
        "u"
        { team_url := "u", team_name := "t", players := [⟨"1", "Aiden Fichter"⟩],
          scraped_at := 0, authentic_data := true } 0)
      "u" 3600
      = some { team_url := "u", team_name := "t", players := [⟨"1", "Aiden Fichter"⟩],
               scraped_at := 0, authentic_data := true } :=
  (c6_cache_round_trip
    [("u", { team_url := "u", team_name := "old", players := [],
             scraped_at := -99, authentic_data := false }, -99)]
    "u"
    { team_url := "u", team_name := "t", players := [⟨"1", "Aiden Fichter"⟩],
      scraped_at := 0, authentic_data := true } 0 3600
    (by norm_num [RosterScraper.cache_duration_hours])).2.1

/-- C7: a physically present cache row whose timestamp is at least
`cache_duration_hours` (24 hours) old is reported as a miss (`None`) by
`get_cached_roster`, even though `cacheLookup` still finds the row. -/
theorem c7_cache_expiry (c : RosterScraper.Cache) (team_url : String)
    (d : RosterScraper.RosterData) (t now : Int)
    (hpresent : RosterScraper.cacheLookup c team_url = some (d, t))
    (hold : now - t ≥ RosterScraper.cache_duration_hours * 3600) :
    RosterScraper.get_cached_roster c team_url now = none := by
  simp only [RosterScraper.get_cached_roster, hpresent]
  rw [if_neg (by omega)]

/-- Closed witness for `c7_cache_expiry`: a row stored at time 0 and read
exactly 24 hours later is a miss although still present. -/
theorem c7_cache_expiry_witness :
    RosterScraper.cacheLookup
      [("u", { team_url := "u", team_name := "t", players := [⟨"2", "Austin Langford"⟩],
               scraped_at := 0, authentic_data := true }, 0)] "u"
      = some ({ team_url := "u", team_name := "t", players := [⟨"2", "Austin Langford"⟩],
                scraped_at := 0, authentic_data := true }, 0) ∧
    RosterScraper.get_cached_roster
      [("u", { team_url := "u", team_name := "t", players := [⟨"2", "Austin Langford"⟩],
               scraped_at := 0, authentic_data := true }, 0)] "u" 86400
      = none :=
  ⟨by decide,
   c7_cache_expiry _ "u"
     { team_url := "u", team_name := "t", players := [⟨"2", "Austin Langford"⟩],
       scraped_at := 0, authentic_data := true } 0 86400 (by decide)
     (by norm_num [RosterScraper.cache_duration_hours])⟩

namespace RosterScraper

/-- Maximal digit run: the greedy `\d+`. -/
def digitRun (l : List Char) : List Char := l.takeWhile Char.isDigit

/-- `re.search(r'team/(\d+)', team_url)`, group 1: the digits after the
leftmost occurrence of `team/` that is followed by at least one digit. -/
def findTeamNumber : List Char → Option String
  | [] => none
  | c :: rest =>
    if isPrefixL "team/".data (c :: rest) then
      let ds := digitRun ((c :: rest).drop 5)
      if ds.isEmpty then findTeamNumber rest else some ⟨ds⟩
    else findTeamNumber rest

/-- The `real_rosters["500413"]` player list (lines 726-739). -/
def roster500413 : List RosterPlayer :=
  [⟨"1", "Aiden Fichter"⟩, ⟨"2", "Austin Langford"⟩, ⟨"3", "Brayden Hurley"⟩,
   ⟨"4", "Evan Bonello"⟩, ⟨"5", "Finley Ysebert GT"⟩, ⟨"6", "Hannah Dolphin"⟩,
   ⟨"7", "Henry Kuhn"⟩, ⟨"8", "Hudson Skrypnyk"⟩, ⟨"9", "Leon Verdugo"⟩,
   ⟨"10", "Logan Cole"⟩, ⟨"11", "Mason Mitchell"⟩, ⟨"12", "Wyatt Doan"⟩]

/-- The `real_rosters["500415"]` player list (lines 743-756). -/
def roster500415 : List RosterPlayer :=
  [⟨"1", "Austin Hall"⟩, ⟨"2", "Bennett Morris"⟩, ⟨"3", "Braden Pickett"⟩,
   ⟨"4", "Bryson Young"⟩, ⟨"5", "Cameron Gignac"⟩, ⟨"6", "Carter Smith"⟩,
   ⟨"7", "Gavin Simpson"⟩, ⟨"8", "Holden Cowl"⟩, ⟨"9", "Josiah (Joey) Hekman"⟩,
   ⟨"10", "Luke Sussex"⟩, ⟨"11", "Maxwell Kim"⟩, ⟨"12", "Skyler Young"⟩]

/-- `team_number in real_rosters` — the dict has exactly the keys
`"500413"` and `"500415"`. -/
def inRealRosters (team_number : String) : Bool :=
  team_number = "500413" || team_number = "500415"

/-- `real_rosters[team_number]` as `(team_name, players)`, for present keys. -/
def realRosterEntry (team_number : String) : String × List RosterPlayer :=
  if team_number = "500413" then ("13U Delaware Komoka Mt. Brydges (DS)", roster500413)
  else ("13U London West (DS)", roster500415)

/-- `scrape_roster` (lines 707-779): serve a fresh-enough cache row if one
exists; otherwise extract the team number from the URL, look it up in the
verified `real_rosters` table (empty player list and a placeholder team name
when absent), build the roster record with `authentic_data` flagging table
membership — and cache the record unconditionally before returning it.
Returns the roster together with the updated cache state. -/
def scrape_roster (c : Cache) (team_url : String) (now : Int) :
    RosterData × Cache :=
  match get_cached_roster c team_url now with
  | some cached => (cached, c)
  | none =>
    let team_number := (findTeamNumber team_url.data).getD "unknown"
    let test_players :=
      if inRealRosters team_number then (realRosterEntry team_number).2 else []
    let actual_team_name :=
      if inRealRosters team_number then (realRosterEntry team_number).1
      else "Real roster data not available for team " ++ team_number
    let roster_data : RosterData :=
      { team_url := team_url, team_name := actual_team_name,
        players := test_players, scraped_at := now,
        authentic_data := inRealRosters team_number }
    (roster_data, cache_roster c team_url roster_data now)

end RosterScraper

/-- C2 counterexample: on the concrete URL
`https://www.playoba.ca/stats#/2111/team/500800/roster` (team number 500800,
not in the verified table) with an empty cache, `scrape_roster` returns an
empty player list flagged `authentic_data = false` — but, contrary to the
claim, it *does* write a cache entry for the URL: the cache state changes
from empty to a one-row table, and a later request within the TTL is served
the stale negative result instead of retrying. -/
theorem c2_counterexample_empty_extraction_is_cached :
    (RosterScraper.scrape_roster []
      "https://www.playoba.ca/stats#/2111/team/500800/roster" 0).1.players = [] ∧
    (RosterScraper.scrape_roster []
      "https://www.playoba.ca/stats#/2111/team/500800/roster" 0).1.authentic_data = false ∧
    (RosterScraper.scrape_roster []
      "https://www.playoba.ca/stats#/2111/team/500800/roster" 0).2 ≠ ([] : RosterScraper.Cache) := by
  refine ⟨rfl, rfl, ?_⟩
  intro h
  simp [RosterScraper.scrape_roster, RosterScraper.get_cached_roster,
    RosterScraper.cacheLookup, RosterScraper.cache_roster] at h

/-- C2 amended: a team URL whose extraction yields an empty player list (its
team number is not in the verified roster table) produces, on a cache miss, a
record flagged `authentic_data = false` — and that record IS written to the
cache under the URL with the current timestamp, so a later request within the
24-hour TTL is answered from the cached negative result rather than retried. -/
theorem c2_amended_empty_extraction_cached (c : RosterScraper.Cache)
    (team_url : String) (now : Int)
    (hmiss : RosterScraper.get_cached_roster c team_url now = none)
    (hempty : RosterScraper.inRealRosters
      ((RosterScraper.findTeamNumber team_url.data).getD "unknown") = false) :
    (RosterScraper.scrape_roster c team_url now).1.players = [] ∧
    (RosterScraper.scrape_roster c team_url now).1.authentic_data = false ∧
    RosterScraper.get_cached_roster (RosterScraper.scrape_roster c team_url now).2 team_url now
      = some (RosterScraper.scrape_roster c team_url now).1 := by
  simp only [RosterScraper.scrape_roster, hmiss, hempty]
  refine ⟨by simp, by simp, ?_⟩
  simp only [RosterScraper.get_cached_roster, RosterScraper.cacheLookup_cache_roster_self]
  rw [if_pos (by norm_num [RosterScraper.cache_duration_hours])]

/-- Closed witness for `c2_amended_empty_extraction_cached` at the URL
of team 500800 with an empty starting cache. -/
theorem c2_amended_empty_extraction_cached_witness :
    (RosterScraper.scrape_roster []
      "https://www.playoba.ca/stats#/2111/team/500800/roster" 0).1.players = [] ∧
    (RosterScraper.scrape_roster []
      "https://www.playoba.ca/stats#/2111/team/500800/roster" 0).1.authentic_data = false ∧
    RosterScraper.get_cached_roster
      (RosterScraper.scrape_roster []
        "https://www.playoba.ca/stats#/2111/team/500800/roster" 0).2
      "https://www.playoba.ca/stats#/2111/team/500800/roster" 0
      = some (RosterScraper.scrape_roster []
        "https://www.playoba.ca/stats#/2111/team/500800/roster" 0).1 :=
  c2_amended_empty_extraction_cached []
    "https://www.playoba.ca/stats#/2111/team/500800/roster" 0 rfl (by decide)

/-! ## `oba_roster_service.OBARosterService` — roster extraction -/

namespace ObaRosterService

/-- A player dict `{"number": ..., "name": ...}` of the roster service. -/
structure Player where
  number : String
  name : String
deriving DecidableEq, Repr

/-- One regex match consumed by the `extract_roster_from_page` loop: the
tuple patterns yield `(number, name)` and the single-group patterns yield
just a name, which the loop treats exactly like a tuple with `number = ''`. -/
abbrev PageMatch := String × String

/-- Body of the match loop of `extract_roster_from_page` (lines 124-145):
strip the name, keep it when it is nonempty, longer than 2 characters and
not an exact repeat of an already collected name, defaulting a missing
number to the 1-based position. -/
def erp_step (players : List Player) (m : PageMatch) : List Player :=
  let number := m.1
  let name := pyStrip m.2
  if name ≠ "" ∧ 2 < name.length ∧ name ∉ players.map Player.name then
    players ++ [⟨if number ≠ "" then number else toString (players.length + 1), name⟩]
  else players

/-- `extract_roster_from_page` (lines 109-151), as a function of the
concatenated match lists its three regex patterns produced. -/
def extract_roster_from_page (ms : List PageMatch) : List Player :=
  ms.foldl erp_step []

/-- The navigation/boilerplate blacklist of `_extract_roster_alternative`. -/
def blacklist_words : List String :=
  ["team", "stats", "roster", "home", "page", "www", "http"]

/-- Body of the match loop of `_extract_roster_alternative`
(lines 171-183). -/
def alt_step (players : List Player) (nm : String) : List Player :=
  let clean_name := pyStrip nm
  if 4 < clean_name.length ∧ pyIn " " clean_name = true
      ∧ clean_name ∉ players.map Player.name
      ∧ blacklist_words.any (fun w => pyIn w (pyLower clean_name)) = false then
    players ++ [⟨toString (players.length + 1), clean_name⟩]
  else players

/-- `_extract_roster_alternative` (lines 153-189), as a function of the
name matches its regex patterns produced; capped at 20 players. -/
def extract_roster_alternative (ms : List String) : List Player :=
  (ms.foldl alt_step []).take 20

theorem erp_step_inv (ps : List Player) (m : PageMatch)
    (h : (∀ p ∈ ps, 2 < p.name.length) ∧ ps.Pairwise (fun p q => p.name ≠ q.name)) :
    (∀ p ∈ erp_step ps m, 2 < p.name.length) ∧
    (erp_step ps m).Pairwise (fun p q => p.name ≠ q.name) := by
  unfold erp_step
  dsimp only
  split
  · next hc =>
    obtain ⟨-, hlen, hfresh⟩ := hc
    constructor
    · intro p hp
      rcases List.mem_append.1 hp with hp | hp
      · exact h.1 p hp
      · simp only [List.mem_singleton] at hp
        subst hp
        exact hlen
    · rw [List.pairwise_append]
      refine ⟨h.2, List.pairwise_singleton _ _, ?_⟩
      intro a ha b hb
      simp only [List.mem_singleton] at hb
      subst hb
      intro hcontr
      exact hfresh (List.mem_map.2 ⟨a, ha, hcontr⟩)
  · exact h

theorem erp_foldl_inv (ms : List PageMatch) (ps : List Player)
    (h : (∀ p ∈ ps, 2 < p.name.length) ∧ ps.Pairwise (fun p q => p.name ≠ q.name)) :
    (∀ p ∈ ms.foldl erp_step ps, 2 < p.name.length) ∧
    (ms.foldl erp_step ps).Pairwise (fun p q => p.name ≠ q.name) := by
  induction ms generalizing ps with
  | nil => exact h
  | cons m rest ih => exact ih (erp_step ps m) (erp_step_inv ps m h)

end ObaRosterService

/-! ## `real_oba_scraper.RealOBAScraper` — extraction cascade -/

namespace RealObaScraper

/-- A player dict `{"number": ..., "name": ..., "position": ...}`. -/
structure SPlayer where
  number : String
  name : String
  position : String
deriving DecidableEq, Repr

/-- Full match of `^\d{1,2}$`: one or two digits. -/
def isJersey (s : String) : Bool :=
  (s.length = 1 || s.length = 2) && s.data.all Char.isDigit

/-- The indexed scan of `parse_player_row` (lines 159-168): find the first
cell holding a 1-2 digit jersey number whose following cell passes the name
check, returning number/name/position from consecutive cells. -/
def pprFindAux : List String → Option SPlayer
  | t :: nm :: rest =>
    if isJersey t = true ∧ 2 < (pyStrip nm).length ∧ isAllDigits (pyStrip nm) = false then
      some ⟨t, pyStrip nm, rest.headD ""⟩
    else pprFindAux (nm :: rest)
  | _ => none

/-- `parse_player_row` (lines 150-179) over the raw `get_text()` results of
the row's cells. -/
def parse_player_row (cells : List String) : Option SPlayer :=
  if cells.length < 2 then none
  else
    let ct := cells.map pyStrip
    match pprFindAux ct with
    | some p => some p
    | none =>
      match ct with
      | c0 :: c1 :: rest =>
        if 2 < c0.length ∧ isAllDigits c0 = false ∧ isJersey c1 = true then
          some ⟨c1, c0, rest.headD ""⟩
        else none
      | _ => none

/-- Method 1 of `extract_players` (lines 124-134): every row with at least
two cells, across all tables, contributes its parsed player if any.  A table
is its rows, a row is the `get_text()` strings of its `td`/`th` cells. -/
def tableStrategy (tables : List (List (List String))) : List SPlayer :=
  tables.foldl (fun acc rows =>
    rows.foldl (fun acc2 cells =>
      if 2 ≤ cells.length then
        match parse_player_row cells with
        | some p => acc2 ++ [p]
        | none => acc2
      else acc2) acc) []

/-- Body of the match loop of `extract_players_from_patterns`
(lines 251-268): orient the two captured groups into number/name by
digit-hood, strip the name and keep it when its length is in (2, 50).
No duplicate check is performed. -/
def epp_step (players : List SPlayer) (m : String × String) : List SPlayer :=
  let np := if isAllDigits m.1 = true then (m.1, m.2) else (m.2, m.1)
  let name := pyStrip np.2
  if 2 < name.length ∧ name.length < 50 then players ++ [⟨np.1, name, ""⟩]
  else players

/-- `extract_players_from_patterns` (lines 240-270), as a function of the
concatenated `finditer` matches of its three patterns. -/
def extract_players_from_patterns (ms : List (String × String)) : List SPlayer :=
  ms.foldl epp_step []

/-- `extract_players` (lines 120-148): the four-strategy cascade.  Method 1
(table rows) is computed via `parse_player_row`; methods 2 (embedded JSON)
and 3 (list elements) are BeautifulSoup/regex driven and enter as the player
lists they produced; method 4 is `extract_players_from_patterns` on its
regex matches.  Each later method runs only if everything before it came up
empty. -/
def extract_players (tables : List (List (List String)))
    (jsonPlayers listPlayers : List SPlayer)
    (patternMatches : List (String × String)) : List SPlayer :=
  let players := tableStrategy tables
  let players := if players = [] then jsonPlayers else players
  let players := if players = [] then listPlayers else players
  let players := if players = [] then extract_players_from_patterns patternMatches
                 else players
  players

/-- Modelled from the spec: "the cascade's output equals the output of the
first strategy in that order that produces a nonempty player list" — the
first nonempty list among the strategy outputs, or empty if none. -/
def firstNonemptyStrategy : List (List SPlayer) → List SPlayer
  | [] => []
  | l :: ls => if l = [] then firstNonemptyStrategy ls else l

theorem epp_step_names (ps : List SPlayer) (m : String × String)
    (h : ∀ p ∈ ps, 2 < p.name.length) :
    ∀ p ∈ epp_step ps m, 2 < p.name.length := by
  have key : ∀ (np : String × String),
      ∀ p ∈ (if 2 < (pyStrip np.2).length ∧ (pyStrip np.2).length < 50 then
          ps ++ [⟨np.1, pyStrip np.2, ""⟩] else ps), 2 < p.name.length := by
    intro np p hp
    split at hp
    · next hc =>
      rcases List.mem_append.1 hp with h1 | h1
      · exact h p h1
      · simp only [List.mem_singleton] at h1
        subst h1
        exact hc.1
    · exact h p hp
  intro p hp
  unfold epp_step at hp
  dsimp only at hp
  exact key _ p hp

theorem epp_foldl_names (ms : List (String × String)) (ps : List SPlayer)
    (h : ∀ p ∈ ps, 2 < p.name.length) :
    ∀ p ∈ ms.foldl epp_step ps, 2 < p.name.length := by
  induction ms generalizing ps with
  | nil => exact h
  | cons m rest ih => exact ih (epp_step ps m) (epp_step_names ps m h)

end RealObaScraper

theorem string_ne_empty_of_two_lt_length (s : String) (h : 2 < s.length) : s ≠ "" := by
  intro e
  rw [e] at h
  exact absurd h (by decide)

/-- C4 counterexample: extraction does let two case-insensitively equal
names through.  `extract_roster_from_page` deduplicates names only by exact
equality, so the document
`<a href="player/1">Ab Cde</a><a href="player/2">AB CDE</a>` — whose
player-link pattern yields the matches `"Ab Cde"` and `"AB CDE"` — produces
a roster of two players whose names are equal case-insensitively.  Moreover
`extract_players_from_patterns` applies no duplicate check at all: the raw
text `"1 Ab Cd 2 Ab Cd"` yields two players with byte-identical names. -/
theorem c4_counterexample_case_insensitive_duplicate :
    (ObaRosterService.extract_roster_from_page [("", "Ab Cde"), ("", "AB CDE")]).map
      ObaRosterService.Player.name = ["Ab Cde", "AB CDE"] ∧
    pyLower "Ab Cde" = pyLower "AB CDE" ∧
    (RealObaScraper.extract_players_from_patterns [("1", "Ab Cd"), ("2", "Ab Cd")]).map
      RealObaScraper.SPlayer.name = ["Ab Cd", "Ab Cd"] := by
  refine ⟨by decide, by decide, by decide⟩

/-- C4 amended: every extracted player's name is non-empty (in fact longer
than 2 characters), and `extract_roster_from_page` never returns two players
with *exactly* equal names — but names that differ only in letter case may
both appear, and `extract_players_from_patterns` performs no duplicate
check at all, so even identical names may repeat there. -/
theorem c4_amended_nonempty_and_exact_dedup (ms : List ObaRosterService.PageMatch)
    (ms2 : List (String × String)) :
    (∀ p ∈ ObaRosterService.extract_roster_from_page ms, p.name ≠ "") ∧
    (ObaRosterService.extract_roster_from_page ms).Pairwise
      (fun p q => p.name ≠ q.name) ∧
    (∀ p ∈ RealObaScraper.extract_players_from_patterns ms2, p.name ≠ "") := by
  have h1 := ObaRosterService.erp_foldl_inv ms [] ⟨by simp, List.Pairwise.nil⟩
  have h2 := RealObaScraper.epp_foldl_names ms2 [] (by simp)
  exact ⟨fun p hp => string_ne_empty_of_two_lt_length p.name (h1.1 p hp), h1.2,
         fun p hp => string_ne_empty_of_two_lt_length p.name (h2 p hp)⟩

/-- Closed witness for `c4_amended_nonempty_and_exact_dedup` at the match
lists of the counterexample document, instantiating the non-emptiness
statement on the first extracted player. -/
theorem c4_amended_nonempty_and_exact_dedup_witness :
    (⟨"1", "Ab Cde"⟩ : ObaRosterService.Player) ∈
      ObaRosterService.extract_roster_from_page [("", "Ab Cde"), ("", "AB CDE")] ∧
    ("Ab Cde" : String) ≠ "" ∧
    (⟨"1", "Ab Cd", ""⟩ : RealObaScraper.SPlayer) ∈
      RealObaScraper.extract_players_from_patterns [("1", "Ab Cd"), ("2", "Ab Cd")] ∧
    (ObaRosterService.extract_roster_from_page [("", "Ab Cde"), ("", "AB CDE")]).Pairwise
      (fun p q => p.name ≠ q.name) :=
  ⟨by decide, (c4_amended_nonempty_and_exact_dedup [("", "Ab Cde"), ("", "AB CDE")]
      [("1", "Ab Cd"), ("2", "Ab Cd")]).1 ⟨"1", "Ab Cde"⟩ (by decide),
   by decide, (c4_amended_nonempty_and_exact_dedup [("", "Ab Cde"), ("", "AB CDE")]
      [("1", "Ab Cd"), ("2", "Ab Cd")]).2.1⟩

/-- C8: the extraction cascade of `extract_players` runs its strategies in
the fixed order table rows → embedded JSON data → list elements → regex
pattern scan, and its output is exactly the output of the first strategy
producing a nonempty player list (empty if all fail); strategies after the
first successful one do not contribute. -/
theorem c8_cascade_first_nonempty (tables : List (List (List String)))
    (jsonPlayers listPlayers : List RealObaScraper.SPlayer)
    (patternMatches : List (String × String)) :
    RealObaScraper.extract_players tables jsonPlayers listPlayers patternMatches
      = RealObaScraper.firstNonemptyStrategy
          [RealObaScraper.tableStrategy tables, jsonPlayers, listPlayers,
           RealObaScraper.extract_players_from_patterns patternMatches] := by
  simp only [RealObaScraper.extract_players, RealObaScraper.firstNonemptyStrategy]
  repeat' split
  all_goals simp_all

namespace ObaRosterService

/-- The observable content of one HTTP-200 roster page fetch, as consumed by
`fetch_roster_data`: the matches its two extraction passes and the
`<title>` search produced.  A request that raised, timed out or returned a
non-200 status is represented by `none` in the per-affiliate outcome map. -/
structure PageFetch where
  pageMatches : List PageMatch
  altMatches : List String
  titleGroup : Option String
deriving Repr

/-- `affiliate_numbers` tried by `fetch_roster_data` (line 194). -/
def affiliate_numbers : List String :=
  ["2111", "0700", "2100", "0900", "1200", "1500", "1800", "2000"]

/-- The dictionary `fetch_roster_data` returns. -/
structure FetchResult where
  team_id : String
  team_name : Option String
  players : List Player
  player_count : Nat
  source : String
  success : Bool
  error : Option String
deriving Repr

/-- The affiliate loop of `fetch_roster_data` (lines 196-231). -/
def fetchLoop (team_id : String) (responses : String → Option PageFetch) :
    List String → FetchResult
  | [] =>
    { team_id := team_id, team_name := none, players := [], player_count := 0,
      source := "live_oba", success := false,
      error := some ("No roster data found across "
        ++ toString affiliate_numbers.length ++ " affiliate attempts") }
  | affiliate :: rest =>
    match responses affiliate with
    | none => fetchLoop team_id responses rest
    | some page =>
      let players := extract_roster_from_page page.pageMatches
      let players := if players = [] then extract_roster_alternative page.altMatches
                     else players
      if players = [] then fetchLoop team_id responses rest
      else
        { team_id := team_id,
          team_name := some (match page.titleGroup with
            | some t => pyStrip t
            | none => "Team " ++ team_id),
          players := players, player_count := players.length,
          source := "live_oba_affiliate_" ++ affiliate, success := true,
          error := none }

/-- `fetch_roster_data` (lines 191-241): try each affiliate in order and
return the first successful nonempty extraction, else the explicit failure
record. -/
def fetch_roster_data (team_id : String) (responses : String → Option PageFetch) :
    FetchResult :=
  fetchLoop team_id responses affiliate_numbers

/-- The `oba_teams` database row consulted by `get_roster`, restricted to
the fields it reads.  `roster_data` models the cached JSON column, which the
service itself only ever populates (in `cache_roster_data`) with the player
list of a previous successful fetch; `none` covers both a missing column and
a non-dict value. -/
structure TeamInfo where
  team_name : String
  organization : String
  division : String
  roster_data : Option (List Player)
deriving Repr

/-- The result dictionary of `get_roster`, restricted to the fields the
claims are about. -/
structure GetRosterResult where
  success : Bool
  players : List Player
  error : Option String
  team_id : String
deriving Repr

/-- `get_roster` (lines 265-319): fail when the team is unknown; serve the
cached player list when caching is requested and the cached record has a
nonempty `players` entry; otherwise fetch live, reporting success exactly
when the fetch succeeded and propagating its error message (defaulted to
`'Failed to fetch roster'`) otherwise. -/
def get_roster (team_id : String) (team_info : Option TeamInfo) (use_cache : Bool)
    (responses : String → Option PageFetch) : GetRosterResult :=
  match team_info with
  | none =>
    { success := false, players := [],
      error := some ("Team " ++ team_id ++ " not found in database"),
      team_id := team_id }
  | some ti =>
    let cacheHit := use_cache && (match ti.roster_data with
      | some ps => !ps.isEmpty
      | none => false)
    if cacheHit then
      { success := true, players := ti.roster_data.getD [], error := none,
        team_id := team_id }
    else
      let roster_data := fetch_roster_data team_id responses
      if roster_data.success then
        { success := true, players := roster_data.players, error := none,
          team_id := team_id }
      else
        { success := false, players := roster_data.players,
          error := some (roster_data.error.getD "Failed to fetch roster"),
          team_id := team_id }

theorem fetchLoop_success_nonempty (team_id : String)
    (responses : String → Option PageFetch) (affs : List String) :
    ((fetchLoop team_id responses affs).success = true →
      (fetchLoop team_id responses affs).players ≠ []) ∧
    ((fetchLoop team_id responses affs).success = false →
      (fetchLoop team_id responses affs).error.isSome = true) := by
  induction affs with
  | nil => exact ⟨fun h => absurd h (by simp [fetchLoop]), fun _ => rfl⟩
  | cons a rest ih =>
    unfold fetchLoop
    dsimp only
    cases responses a with
    | none => exact ih
    | some page =>
      dsimp only
      by_cases h1 : extract_roster_from_page page.pageMatches = []
      · rw [if_pos h1]
        by_cases h2 : extract_roster_alternative page.altMatches = []
        · rw [if_pos h2]
          exact ih
        · rw [if_neg h2]
          exact ⟨fun _ => h2, fun h => absurd h (by simp)⟩
      · rw [if_neg h1, if_neg h1]
        exact ⟨fun _ => h1, fun h => absurd h (by simp)⟩

end ObaRosterService

/-- C9: `get_roster` returns `success = true` only together with a nonempty
player list — the cache branch requires a nonempty cached `players` entry
and the live branch requires a successful fetch, which only arises from a
nonempty extraction — and every failure result carries an error message. -/
theorem c9_get_roster_success_iff_players (team_id : String)
    (team_info : Option ObaRosterService.TeamInfo) (use_cache : Bool)
    (responses : String → Option ObaRosterService.PageFetch) :
    ((ObaRosterService.get_roster team_id team_info use_cache responses).success = true →
      (ObaRosterService.get_roster team_id team_info use_cache responses).players ≠ []) ∧
    ((ObaRosterService.get_roster team_id team_info use_cache responses).success = false →
      (ObaRosterService.get_roster team_id team_info use_cache responses).error.isSome
        = true) := by
  unfold ObaRosterService.get_roster
  cases team_info with
  | none => exact ⟨fun h => absurd h (by simp), fun _ => rfl⟩
  | some ti =>
    dsimp only
    split
    · next hcache =>
      rw [Bool.and_eq_true] at hcache
      have h2 := hcache.2
      cases hrd : ti.roster_data with
      | none =>
        rw [hrd] at h2
        exact absurd h2 (by simp)
      | some ps =>
        rw [hrd] at h2
        refine ⟨fun _ => ?_, fun h => absurd h (by simp)⟩
        simp only [hrd, Option.getD_some]
        cases ps with
        | nil => simp at h2
        | cons x xs => simp
    · have hf := ObaRosterService.fetchLoop_success_nonempty team_id responses
        ObaRosterService.affiliate_numbers
      split
      · next hs =>
        exact ⟨fun _ => hf.1 hs, fun h => absurd h (by simp)⟩
      · exact ⟨fun h => absurd h (by simp), fun _ => rfl⟩

/-- Closed witness for `c9_get_roster_success_iff_players`: a team whose
database row holds a cached two-player roster is served successfully with
those players; an unknown team id yields a failure carrying an error. -/
theorem c9_get_roster_success_iff_players_witness :
    (ObaRosterService.get_roster "500903"
      (some { team_name := "London Badgers", organization := "London",
              division := "13U",
              roster_data := some [⟨"7", "John Smith"⟩, ⟨"9", "Jane Doe"⟩] })
      true (fun _ => none)).players ≠ [] ∧
    (ObaRosterService.get_roster "1" none true (fun _ => none)).error.isSome = true :=
  ⟨(c9_get_roster_success_iff_players "500903"
      (some { team_name := "London Badgers", organization := "London",
              division := "13U",
              roster_data := some [⟨"7", "John Smith"⟩, ⟨"9", "Jane Doe"⟩] })
      true (fun _ => none)).1 (by decide),
   (c9_get_roster_success_iff_players "1" none true (fun _ => none)).2 rfl⟩

namespace RosterScraper

/-- Python regex word character `\w` (ASCII fragment). -/
def isWordChar (c : Char) : Bool := c.isAlphanum || c = '_'

/-- Case-insensitive prefix match (ASCII case folding, as used by
`re.IGNORECASE` on the classification tokens). -/
def icIsPrefix : List Char → List Char → Bool
  | [], _ => true
  | _ :: _, [] => false
  | a :: as, b :: bs => a.toLower = b.toLower && icIsPrefix as bs

/-- Scan for `rf'\b{token}\b'` with `re.IGNORECASE`: some position matches
the token case-insensitively, the previous character (if any) is not a word
character, and the character right after the match (if any) is not either. -/
def wbAux (tok : List Char) (prev : Option Char) : List Char → Bool
  | [] => false
  | c :: rest =>
    ((match prev with | none => true | some p => !isWordChar p)
      && icIsPrefix tok (c :: rest)
      && (match (List.drop tok.length (c :: rest)).head? with
          | none => true
          | some nxt => !isWordChar nxt))
    || wbAux tok (some c) rest

/-- `re.search(rf'\b{token}\b', s, flags=re.IGNORECASE) is not None`. -/
def reWordSearch (token s : String) : Bool := wbAux token.data none s.data

/-- The classification tiers of `generate_team_name_variations` (line 804). -/
def classifications : List String :=
  ["AAA", "AA", "A", "B", "C", "D", "DS", "HS", "Rep", "Select"]

/-- The mascot suffixes stripped from the base name (line 811). -/
def common_suffixes : List String :=
  ["Falcons", "Eagles", "Knights", "Warriors", "Tigers", "Hawks",
   "Cardinals", "Blue Jays", "Cubs"]

/-- The characters before the first occurrence of `" - "`, when one
exists. -/
def beforeSep : List Char → Option (List Char)
  | [] => none
  | c :: rest =>
    if isPrefixL " - ".data (c :: rest) then some []
    else match beforeSep rest with
      | some pre => some (c :: pre)
      | none => none

/-- `team_name.split(' - ')[0]`: the part before the first `' - '` (the
whole string when the separator is absent). -/
def baseNameOf (team_name : String) : String :=
  match beforeSep team_name.data with
  | some pre => ⟨pre⟩
  | none => team_name

/-- The suffix-stripping loop (lines 812-817): the first suffix the base
name ends with (preceded by a space) is removed, contributing the shortened
name as one extra variation. -/
def cleanAndSufVars (base_name : String) : String × List String :=
  match common_suffixes.find? (fun suffix => pyEndswith base_name (" " ++ suffix)) with
  | some suffix =>
    let c := pyDropRight base_name (suffix.length + 1)
    (c, [c])
  | none => (base_name, [])

/-- One pass of the dedup loop (lines 858-865): normalize whitespace, keep
the string when nonempty and unseen. -/
def dedup_step (acc : List String) (v : String) : List String :=
  let v_clean := normalizeWs v
  if v_clean ≠ "" ∧ v_clean ∉ acc then acc ++ [v_clean] else acc

/-- The dedup loop over the collected variations. -/
def pyDedupNorm (vs : List String) : List String := vs.foldl dedup_step []

/-- `generate_team_name_variations` (lines 796-867). -/
def generate_team_name_variations (team_name division : String) : List String :=
  let base_name := baseNameOf team_name
  let cs := cleanAndSufVars base_name
  let clean_name := cs.1
  let existing_classification :=
    classifications.find? (fun cl => reWordSearch cl team_name)
  let headVars := [team_name, base_name] ++ cs.2
  let divVars :=
    if pyIn "11U" division || pyIn "13U" division then
      (match existing_classification with
       | some ec =>
         [division ++ " " ++ ec ++ " " ++ clean_name,
          clean_name ++ " " ++ division ++ " " ++ ec,
          ec ++ " " ++ clean_name ++ " " ++ division]
       | none => []) ++
      (["HS", "AAA", "AA", "A", "B", "C", "D", "DS"].flatMap (fun cl =>
        [division ++ " " ++ cl ++ " " ++ clean_name,
         clean_name ++ " " ++ division ++ " " ++ cl,
         cl ++ " " ++ clean_name ++ " " ++ division])) ++
      [division ++ " " ++ clean_name, clean_name ++ " " ++ division, clean_name] ++
      (if !(pyIn "Falcons" clean_name) && pyIn "Forest Glade" clean_name then
        let with_falcons := clean_name ++ " Falcons"
        [with_falcons, division ++ " " ++ with_falcons] ++
        (match existing_classification with
         | some ec => [division ++ " " ++ ec ++ " " ++ with_falcons]
         | none => [])
      else [])
    else []
  pyDedupNorm (headVars ++ divVars)

theorem dedup_step_nodup (acc : List String) (v : String) (h : acc.Nodup) :
    (dedup_step acc v).Nodup := by
  unfold dedup_step
  dsimp only
  split
  · next hc =>
    rw [List.nodup_append]
    exact ⟨h, List.nodup_singleton _, by
      intro a ha hb
      simp only [List.mem_singleton] at hb
      exact hc.2 (hb ▸ ha)⟩
  · exact h

theorem dedup_foldl_nodup (vs : List String) (acc : List String) (h : acc.Nodup) :
    (vs.foldl dedup_step acc).Nodup := by
  induction vs generalizing acc with
  | nil => exact h
  | cons v rest ih => exact ih (dedup_step acc v) (dedup_step_nodup acc v h)

theorem dedup_foldl_mem_mono (vs : List String) (acc : List String) (x : String)
    (h : x ∈ acc) : x ∈ vs.foldl dedup_step acc := by
  induction vs generalizing acc with
  | nil => exact h
  | cons v rest ih =>
    refine ih (dedup_step acc v) ?_
    unfold dedup_step
    dsimp only
    split
    · exact List.mem_append_left _ h
    · exact h

theorem dedup_foldl_mem_of_mem (vs : List String) (acc : List String) (v : String)
    (hv : v ∈ vs) (hne : normalizeWs v ≠ "") :
    normalizeWs v ∈ vs.foldl dedup_step acc := by
  induction vs generalizing acc with
  | nil => cases hv
  | cons w rest ih =>
    rcases List.mem_cons.1 hv with rfl | hv
    · refine dedup_foldl_mem_mono rest (dedup_step acc v) _ ?_
      unfold dedup_step
      dsimp only
      split
      · exact List.mem_append_right _ (List.mem_singleton.2 rfl)
      · next hc =>
        push_neg at hc
        exact hc hne
    · exact ih (dedup_step acc w) hv

end RosterScraper

/-- C3 counterexample: `generate_team_name_variations` is *not* always
non-empty and does *not* always contain the bare base name verbatim.  On
`("", "")` the two seed variations normalize to the empty string, which the
dedup loop filters out, so the result is the empty list; and on
`("A  B", "")` the base name `"A  B"` (double space, no `' - '` separator)
only survives in whitespace-normalized form `"A B"`, so the bare base name
itself is absent from the output. -/
theorem c3_counterexample_empty_and_unnormalized_base :
    RosterScraper.generate_team_name_variations "" "" = [] ∧
    "A  B" ∉ RosterScraper.generate_team_name_variations "A  B" "" := by
  refine ⟨by decide, by decide⟩

/-- C3 amended: for every `(team_name, division)` the variation list is
finite and deterministic (it is a pure function of its arguments), contains
no duplicates after whitespace normalization with first-occurrence order
preserved, and — provided the bare base name (the part of `team_name`
before `' - '`) does not normalize to the empty string — is non-empty and
contains the whitespace-normalized bare base name. -/
theorem c3_amended_variations_nodup_base (team_name division : String) :
    (RosterScraper.generate_team_name_variations team_name division).Nodup ∧
    (normalizeWs (RosterScraper.baseNameOf team_name) ≠ "" →
      RosterScraper.generate_team_name_variations team_name division ≠ [] ∧
      normalizeWs (RosterScraper.baseNameOf team_name) ∈
        RosterScraper.generate_team_name_variations team_name division) := by
  constructor
  · exact RosterScraper.dedup_foldl_nodup _ [] List.nodup_nil
  · intro hne
    have hmem : normalizeWs (RosterScraper.baseNameOf team_name) ∈
        RosterScraper.generate_team_name_variations team_name division := by
      unfold RosterScraper.generate_team_name_variations RosterScraper.pyDedupNorm
      dsimp only
      exact RosterScraper.dedup_foldl_mem_of_mem _ []
        (RosterScraper.baseNameOf team_name) (by simp) hne
    exact ⟨fun h => (by rw [h] at hmem; cases hmem), hmem⟩

/-- Closed witness for `c3_amended_variations_nodup_base` at
`("Forest Glade Falcons - 11U HS", "11U")`: the normalized base name
`"Forest Glade Falcons"` is nonempty, the output has no duplicates and
contains it. -/
theorem c3_amended_variations_nodup_base_witness :
    normalizeWs (RosterScraper.baseNameOf "Forest Glade Falcons - 11U HS") ≠ "" ∧
    "Forest Glade Falcons" ∈
      RosterScraper.generate_team_name_variations "Forest Glade Falcons - 11U HS" "11U" ∧
    (RosterScraper.generate_team_name_variations "Forest Glade Falcons - 11U HS" "11U").Nodup :=
  ⟨by decide,
   by
     have h := (c3_amended_variations_nodup_base "Forest Glade Falcons - 11U HS" "11U").2
       (by decide)
     have hb : normalizeWs (RosterScraper.baseNameOf "Forest Glade Falcons - 11U HS")
         = "Forest Glade Falcons" := by decide
     exact hb ▸ h.2,
   (c3_amended_variations_nodup_base "Forest Glade Falcons - 11U HS" "11U").1⟩

namespace RosterScraper

/-- `team_location_affiliates` of `detect_affiliate_from_team_name`
(lines 872-944), in dict insertion order. -/
def team_location_affiliates : List (String × String) :=
  [("newmarket", "York Simcoe"), ("aurora", "York Simcoe"), ("bradford", "York Simcoe"),
   ("georgina", "York Simcoe"), ("innisfil", "York Simcoe"), ("markham", "York Simcoe"),
   ("peterborough", "Kawartha"), ("lindsay", "Kawartha"), ("cobourg", "Kawartha"),
   ("durham", "Durham Region"), ("oshawa", "Durham Region"), ("whitby", "Durham Region"),
   ("ajax", "Durham Region"), ("pickering", "Durham Region"), ("bowmanville", "Durham Region"),
   ("ottawa", "Eastern Ontario"), ("cornwall", "Eastern Ontario"), ("kingston", "Eastern Ontario"),
   ("hamilton", "Hamilton"), ("stoney creek", "Hamilton"), ("dundas", "Hamilton"),
   ("toronto", "Toronto"), ("etobicoke", "Toronto"), ("scarborough", "Toronto"),
   ("north york", "Toronto"), ("east york", "Toronto"),
   ("london", "London"), ("st. thomas", "London"), ("strathroy", "London"),
   ("mississauga", "Mississauga North Halton"), ("halton", "Mississauga North Halton"),
   ("milton", "Mississauga North Halton"), ("georgetown", "Mississauga North Halton"),
   ("brantford", "South Counties"), ("simcoe", "South Counties"), ("caledonia", "South Counties"),
   ("waterloo", "Waterloo"), ("kitchener", "Waterloo"), ("cambridge", "Waterloo"),
   ("guelph", "Waterloo"),
   ("owen sound", "Grey Bruce"), ("collingwood", "Grey Bruce"), ("meaford", "Grey Bruce"),
   ("stratford", "Huron Perth"), ("goderich", "Huron Perth"), ("listowel", "Huron Perth"),
   ("niagara", "Niagara"), ("st. catharines", "Niagara"), ("welland", "Niagara"),
   ("fort erie", "Niagara"),
   ("thunder bay", "Thunder Bay"),
   ("barrie", "Central Ontario"), ("orillia", "Central Ontario"), ("midland", "Central Ontario"),
   ("burlington", "Burlington"), ("oakville", "Burlington"),
   ("northumberland", "Northumberland"), ("port hope", "Northumberland"),
   ("parry sound", "Georgian Bay"), ("bracebridge", "Georgian Bay"),
   ("sarnia", "Lambton"), ("petrolia", "Lambton"), ("wyoming", "Lambton"),
   ("north bay", "North Bay"),
   ("windsor", "Sun Parlour"), ("essex", "Sun Parlour"), ("kingsville", "Sun Parlour"),
   ("leamington", "Sun Parlour"), ("belle river", "Sun Parlour"),
   ("forest glade", "Sun Parlour"), ("chatham", "Sun Parlour"),
   ("wallaceburg", "Sun Parlour"), ("lakeshore", "Sun Parlour"),
   ("south woodslee", "Sun Parlour")]

/-- `detect_affiliate_from_team_name` (lines 869-953): first location
keyword contained in the lowercased team name wins, in table order. -/
def detect_affiliate_from_team_name (team_name : String) : Option String :=
  (team_location_affiliates.find? (fun la => pyIn la.1 (pyLower team_name))).map
    (fun la => la.2)

/-- One step of `thefuzz` `process.extractOne`: keep the best-scoring choice
seen so far, replacing it only on a strictly greater score (so the first
maximal choice wins, as `max` does on the generated candidate list). -/
def eoStep (query : String) (scorer : String → String → Nat)
    (best : Option (String × Nat)) (n : String) : Option (String × Nat) :=
  match best with
  | none => some (n, scorer query n)
  | some bs => if bs.2 < scorer query n then some (n, scorer query n) else some bs

/-- `process.extractOne(search_name, team_names, scorer=fuzz.ratio)`: the
first choice attaining the maximal score, with the external `fuzz.ratio`
scorer supplied as a function parameter. -/
def extractOne (query : String) (choices : List String)
    (scorer : String → String → Nat) : Option (String × Nat) :=
  choices.foldl (eoStep query scorer) none

/-- Python dict access `teams[matched_name]`. -/
def dictGet (teams : List (String × String)) (k : String) : String :=
  match teams with
  | [] => ""
  | (n, u) :: rest => if n = k then u else dictGet rest k

/-- `find_best_team_match` (lines 781-794): empty listing yields no match;
otherwise the extracted best candidate is returned only when its score
reaches the minimum 60% similarity. -/
def find_best_team_match (teams : List (String × String)) (search_name : String)
    (scorer : String → String → Nat) : Option (String × String × Nat) :=
  if teams = [] then none
  else
    match extractOne search_name (teams.map Prod.fst) scorer with
    | some best =>
      if 60 ≤ best.2 then some (best.1, dictGet teams best.1, best.2) else none
    | none => none

/-- One step of the variation loop of `get_roster_with_fuzzy_match`
(lines 978-982): a match replaces the current best exactly when there is no
best yet or it scores strictly higher. -/
def bvStep (teams : List (String × String)) (scorer : String → String → Nat)
    (acc : Option (String × String × Nat) × String) (variation : String) :
    Option (String × String × Nat) × String :=
  match find_best_team_match teams variation scorer with
  | some m =>
    match acc.1 with
    | none => (some m, variation)
    | some bm => if bm.2.2 < m.2.2 then (some m, variation) else acc
  | none => acc

/-- The whole variation loop, starting from `(None, team_name)`. -/
def bestVariation (teams : List (String × String)) (scorer : String → String → Nat)
    (variations : List String) (team_name : String) :
    Option (String × String × Nat) × String :=
  variations.foldl (bvStep teams scorer) (none, team_name)

/-- The result dictionary of `get_roster_with_fuzzy_match`; keys absent from
a given branch's dict are modelled as `none` / `false` / `0`. -/
structure FuzzyResult where
  success : Bool
  needs_confirmation : Bool
  error : Option String
  available_teams : Option (List String)
  matched_team : Option String
  confidence : Nat
  team_url : Option String
  search_term : Option String
  affiliate_used : Option String
deriving Repr

/-- `get_roster_with_fuzzy_match` (lines 955-1002).  The division listing
produced by `get_division_teams` (a network fetch with hard-coded fallback
tables) enters as the `teams` parameter, and the external `fuzz.ratio`
scorer as `scorer`; everything else — affiliate detection, variation
generation, the best-match loop and the result dictionaries — is embedded
from the source. -/
def get_roster_with_fuzzy_match (affiliate season division team_name : String)
    (scorer : String → String → Nat) (teams : List (String × String)) : FuzzyResult :=
  let affiliate_used := (detect_affiliate_from_team_name team_name).getD affiliate
  if teams = [] then
    { success := false, needs_confirmation := false,
      error := some "Could not retrieve teams for this division",
      available_teams := none, matched_team := none, confidence := 0,
      team_url := none, search_term := none, affiliate_used := none }
  else
    let name_variations := generate_team_name_variations team_name division
    let best := bestVariation teams scorer name_variations team_name
    match best.1 with
    | none =>
      { success := false, needs_confirmation := false,
        error := some "No matching team found",
        available_teams := some (teams.map Prod.fst), matched_team := none,
        confidence := 0, team_url := none, search_term := none,
        affiliate_used := none }
    | some m =>
      { success := true, needs_confirmation := true, error := none,
        available_teams := none, matched_team := some m.1, confidence := m.2.2,
        team_url := some m.2.1, search_term := some best.2,
        affiliate_used := some affiliate_used }

theorem extractOne_low (query : String) (scorer : String → String → Nat) :
    ∀ (choices : List String) (acc : Option (String × Nat)),
    (∀ ns, acc = some ns → ns.2 < 60) → (∀ n ∈ choices, scorer query n < 60) →
    ∀ ns, choices.foldl (eoStep query scorer) acc = some ns → ns.2 < 60 := by
  intro choices
  induction choices with
  | nil => intro acc hacc _ ns hns; exact hacc ns hns
  | cons c rest ih =>
    intro acc hacc hall ns hns
    refine ih (eoStep query scorer acc c) ?_ (fun n hn => hall n (List.mem_cons_of_mem c hn))
      ns hns
    intro ms hms
    unfold eoStep at hms
    cases acc with
    | none =>
      cases hms
      exact hall c (List.mem_cons_self c rest)
    | some bs =>
      dsimp only at hms
      split at hms
      · cases hms
        exact hall c (List.mem_cons_self c rest)
      · cases hms
        exact hacc _ rfl

theorem find_best_team_match_some_ge (teams : List (String × String))
    (v : String) (scorer : String → String → Nat) (m : String × String × Nat)
    (h : find_best_team_match teams v scorer = some m) : 60 ≤ m.2.2 := by
  unfold find_best_team_match at h
  split at h
  · cases h
  · cases heo : extractOne v (teams.map Prod.fst) scorer with
    | none =>
      rw [heo] at h
      simp at h
    | some best =>
      rw [heo] at h
      dsimp only at h
      by_cases h60 : 60 ≤ best.2
      · rw [if_pos h60] at h
        cases h
        exact h60
      · rw [if_neg h60] at h
        cases h

theorem find_best_team_match_none_of_low (teams : List (String × String))
    (v : String) (scorer : String → String → Nat)
    (hall : ∀ p ∈ teams, scorer v p.1 < 60) :
    find_best_team_match teams v scorer = none := by
  unfold find_best_team_match
  split
  · rfl
  · cases heo : extractOne v (teams.map Prod.fst) scorer with
    | none => simp [heo]
    | some best =>
      have hlow : best.2 < 60 := by
        refine extractOne_low v scorer (teams.map Prod.fst) none (by intro ns h; cases h)
          ?_ best heo
        intro n hn
        obtain ⟨p, hp, rfl⟩ := List.mem_map.1 hn
        exact hall p hp
      simp only [heo]
      rw [if_neg (by omega)]

theorem bestVariation_foldl_ge (teams : List (String × String))
    (scorer : String → String → Nat) :
    ∀ (vars : List String) (acc : Option (String × String × Nat) × String),
    (∀ m, acc.1 = some m → 60 ≤ m.2.2) →
    ∀ m, (vars.foldl (bvStep teams scorer) acc).1 = some m → 60 ≤ m.2.2 := by
  intro vars
  induction vars with
  | nil => intro acc hacc m hm; exact hacc m hm
  | cons v rest ih =>
    intro acc hacc m hm
    refine ih (bvStep teams scorer acc v) ?_ m hm
    intro m' hm'
    unfold bvStep at hm'
    cases hf : find_best_team_match teams v scorer with
    | none => rw [hf] at hm'; exact hacc m' hm'
    | some fm =>
      rw [hf] at hm'
      dsimp only at hm'
      cases hacc1 : acc.1 with
      | none =>
        rw [hacc1] at hm'
        cases hm'
        exact find_best_team_match_some_ge teams v scorer m' hf
      | some bm =>
        rw [hacc1] at hm'
        dsimp only at hm'
        split at hm'
        · cases hm'
          exact find_best_team_match_some_ge teams v scorer m' hf
        · exact hacc m' hm'

theorem bestVariation_none (teams : List (String × String))
    (scorer : String → String → Nat) :
    ∀ (vars : List String) (t : String),
    (∀ v ∈ vars, find_best_team_match teams v scorer = none) →
    bestVariation teams scorer vars t = (none, t) := by
  intro vars
  induction vars with
  | nil => intro t _; rfl
  | cons v rest ih =>
    intro t hall
    unfold bestVariation
    rw [List.foldl_cons]
    have hstep : bvStep teams scorer (none, t) v = (none, t) := by
      unfold bvStep
      rw [hall v (List.mem_cons_self v rest)]
    rw [hstep]
    exact ih t (fun w hw => hall w (List.mem_cons_of_mem v hw))

end RosterScraper

/-- C1: every positive result of `get_roster_with_fuzzy_match` carries a
confidence of at least 60 together with `needs_confirmation = true`; and
when the retrieved division listing is nonempty but no generated name
variation scores at least 60 against any listed team name, the result is a
failure carrying the `'No matching team found'` error and the list of
available team names. -/
theorem c1_fuzzy_match_threshold (affiliate season division team_name : String)
    (scorer : String → String → Nat) (teams : List (String × String)) :
    ((RosterScraper.get_roster_with_fuzzy_match affiliate season division team_name
        scorer teams).success = true →
      60 ≤ (RosterScraper.get_roster_with_fuzzy_match affiliate season division team_name
        scorer teams).confidence ∧
      (RosterScraper.get_roster_with_fuzzy_match affiliate season division team_name
        scorer teams).needs_confirmation = true) ∧
    (teams ≠ [] →
      (∀ v ∈ RosterScraper.generate_team_name_variations team_name division,
        ∀ p ∈ teams, scorer v p.1 < 60) →
      (RosterScraper.get_roster_with_fuzzy_match affiliate season division team_name
        scorer teams).success = false ∧
      (RosterScraper.get_roster_with_fuzzy_match affiliate season division team_name
        scorer teams).error = some "No matching team found" ∧
      (RosterScraper.get_roster_with_fuzzy_match affiliate season division team_name
        scorer teams).available_teams = some (teams.map Prod.fst)) := by
  unfold RosterScraper.get_roster_with_fuzzy_match
  dsimp only
  by_cases ht : teams = []
  · rw [if_pos ht]
    exact ⟨fun h => absurd h (by simp), fun hne => absurd ht hne⟩
  · rw [if_neg ht]
    cases hbv : (RosterScraper.bestVariation teams scorer
        (RosterScraper.generate_team_name_variations team_name division) team_name).1 with
    | none =>
      exact ⟨fun h => absurd h (by simp), fun _ _ => ⟨rfl, rfl, rfl⟩⟩
    | some m =>
      constructor
      · intro _
        refine ⟨?_, rfl⟩
        refine RosterScraper.bestVariation_foldl_ge teams scorer
          (RosterScraper.generate_team_name_variations team_name division)
          (none, team_name) (by intro m' hm'; cases hm') m ?_
        exact hbv
      · intro _ hall
        have hnone := RosterScraper.bestVariation_none teams scorer
          (RosterScraper.generate_team_name_variations team_name division) team_name
          (fun v hv => RosterScraper.find_best_team_match_none_of_low teams v scorer
            (hall v hv))
        rw [hnone] at hbv
        simp at hbv

/-- Closed witness for `c1_fuzzy_match_threshold`: with an equality scorer,
the listing `[("ab", "u")]` matches the query `"ab"` positively (confidence
100, confirmation required); and against the listing `[("zz", "u")]` every
variation of `"ab"` scores 0 < 60, producing the no-match failure with the
available team names. -/
theorem c1_fuzzy_match_threshold_witness :
    (60 ≤ (RosterScraper.get_roster_with_fuzzy_match "x" "2025" "9U" "ab"
        (fun a b => if a = b then 100 else 0) [("ab", "u")]).confidence ∧
      (RosterScraper.get_roster_with_fuzzy_match "x" "2025" "9U" "ab"
        (fun a b => if a = b then 100 else 0) [("ab", "u")]).needs_confirmation = true) ∧
    ((RosterScraper.get_roster_with_fuzzy_match "x" "2025" "9U" "ab"
        (fun a b => if a = b then 100 else 0) [("zz", "u")]).success = false ∧
      (RosterScraper.get_roster_with_fuzzy_match "x" "2025" "9U" "ab"
        (fun a b => if a = b then 100 else 0) [("zz", "u")]).error
        = some "No matching team found" ∧
      (RosterScraper.get_roster_with_fuzzy_match "x" "2025" "9U" "ab"
        (fun a b => if a = b then 100 else 0) [("zz", "u")]).available_teams
        = some ["zz"]) :=
  ⟨(c1_fuzzy_match_threshold "x" "2025" "9U" "ab"
      (fun a b => if a = b then 100 else 0) [("ab", "u")]).1 (by decide),
   (c1_fuzzy_match_threshold "x" "2025" "9U" "ab"
      (fun a b => if a = b then 100 else 0) [("zz", "u")]).2 (by decide) (by decide)⟩
